import Mathlib

/-! # The CRUD fragments of `src/App.js`

`src/App.js` is a tutorial text holding four Express handlers over MySQL:

* `app.get('/')`            : `SELECT * FROM apple` through a pool on database `dbname`;
* `app.post('/users')`      : `INSERT INTO users (name, email, password) VALUES (?, ?, ?)`;
* `app.put('/users/:id')`   : `UPDATE users SET name=?, email=?, password=? WHERE id=?`;
* `app.delete('/users/:id')`: `DELETE FROM users WHERE id = ?`;

the last three on a fresh connection to database `user_db`.

The handlers are embedded as state-passing functions over a `World` (the two tables the
statements name, and the number of connections currently held).  The MySQL server is outside the
repository: what it does to one request (refusing the connection, rejecting the statement) is an
explicit input `Env`, and the effect of an accepted statement on the tables is `Statement.run`.
`postUsers` and `putUsers` are the `try`/`catch` statements of their handlers;
`postUsersHandler` and `putUsersHandler` put the destructuring of `req.body` before them.
The route parameter `id` is taken as the number it denotes.  `console.error` in the `catch`
clauses writes to the log only and is left out.

Four smaller fragments of the same text follow the CRUD definitions, each in a namespace of its
own: `divide` (`ErrorHandling`), the query-parameter server (`QueryParameters`), the Multer
`filename` callback (`FileUpload`) and the Passport verify callback (`Authentication`).
-/

namespace CrudApi

/-! ## Data model -/

/-- An error raised by the driver or the server (`error` in the `catch` clauses). -/
structure DbError where
  code : String
deriving DecidableEq, Repr

/-- A row of table `users` of database `user_db`: "columns: `id` (auto-incremented primary key),
`name`, `email`, and `password`". -/
structure User where
  id : Nat
  name : String
  email : String
  password : String
deriving DecidableEq, Repr

/-- A row of table `apple` of database `dbname`, as `SELECT *` yields it.  The text lists the
columns `name`, `email` and `password` for this table; `id` is the value of an `id` column when
the table has one. -/
structure AppleRow where
  id : Option Nat
  name : String
  email : String
  password : String
deriving DecidableEq, Repr

/-- Table `users`: its rows in the order the store yields them, and the `AUTO_INCREMENT`
counter, the id the next inserted row receives. -/
structure UsersTable where
  rows : List User
  nextId : Nat
deriving DecidableEq, Repr

/-- The persisted state: table `apple` (database `dbname`) and table `users` (database
`user_db`). -/
structure Store where
  apple : List AppleRow
  users : UsersTable
deriving DecidableEq, Repr

/-- The store together with the number of connections that are held: opened by
`mysql.createConnection` or acquired by `pool.getConnection`, and not yet ended or released. -/
structure World where
  store : Store
  connections : Nat
deriving DecidableEq, Repr

/-- What the database server does to one request: `connectError = some e` when opening or
acquiring the connection rejects with `e`, `statementError = some e` when the statement is
rejected with `e`. -/
structure Env where
  connectError : Option DbError
  statementError : Option DbError
deriving DecidableEq, Repr

/-! ## The four SQL statements of the source -/

/-- The statements the handlers send, with their bound parameters. -/
inductive Statement where
  | selectApple
  | insertUser (name email password : String)
  | updateUser (name email password : String) (id : Nat)
  | deleteUser (id : Nat)
deriving DecidableEq, Repr

/-- What a statement resolves to: the rows of a `SELECT`, or the header of a write (the number
of affected rows and the id given to an inserted row, `0` when none was inserted). -/
inductive QueryResult where
  | rows (rs : List AppleRow)
  | header (affectedRows : Nat) (insertId : Nat)
deriving DecidableEq, Repr

/-- The body of an HTTP response: `res.send(text)` or `res.json(value)`. -/
inductive Body where
  | text (s : String)
  | json (value : QueryResult)
deriving DecidableEq, Repr

/-- An HTTP response: status code and body. -/
structure Response where
  status : Nat
  body : Body
deriving DecidableEq, Repr

/-- The records a response carries: the array of a JSON body, none for any other body. -/
def Response.records (r : Response) : List AppleRow :=
  match r.body with
  | .json (.rows rs) => rs
  | _ => []

/-- Statement `INSERT INTO users (name, email, password) VALUES (?, ?, ?)`: the new row takes
the counter as its id and goes last. -/
def UsersTable.insert (t : UsersTable) (name email password : String) : UsersTable :=
  { rows := t.rows ++ [{ id := t.nextId, name := name, email := email, password := password }],
    nextId := t.nextId + 1 }

/-- Statement `UPDATE users SET name=?, email=?, password=? WHERE id=?`: every row whose id
matches gets the three values, and keeps its id. -/
def UsersTable.update (t : UsersTable) (name email password : String) (id : Nat) : UsersTable :=
  { t with rows := t.rows.map fun r =>
      if r.id = id then { r with name := name, email := email, password := password } else r }

/-- Statement `DELETE FROM users WHERE id = ?`: every row whose id matches is dropped. -/
def UsersTable.delete (t : UsersTable) (id : Nat) : UsersTable :=
  { t with rows := t.rows.filter fun r => decide (r.id ≠ id) }

/-- The number of rows a `WHERE id = ?` clause matches. -/
def UsersTable.matching (t : UsersTable) (id : Nat) : Nat :=
  (t.rows.filter fun r => decide (r.id = id)).length

/-- The effect of an accepted statement: its result and the store after it. -/
def Statement.run (q : Statement) (s : Store) : QueryResult × Store :=
  match q with
  | .selectApple => (.rows s.apple, s)
  | .insertUser name email password =>
      (.header 1 s.users.nextId, { s with users := s.users.insert name email password })
  | .updateUser name email password id =>
      (.header (s.users.matching id) 0, { s with users := s.users.update name email password id })
  | .deleteUser id =>
      (.header (s.users.matching id) 0, { s with users := s.users.delete id })

/-! ## Driver calls

A call takes the world and returns its outcome (`Except.error` for a rejected promise) with the
world after it. -/

/-- A step of a handler: outcome and world after it. -/
abbrev Step (α : Type) := World → Except DbError α × World

/-- Calls `await mysql.createConnection(dbConfig)` and `await pool.getConnection()`: on success
one more connection is held. -/
def getConnection (env : Env) : Step Unit := fun w =>
  match env.connectError with
  | some e => (.error e, w)
  | none => (.ok (), { w with connections := w.connections + 1 })

/-- Calls `await connection.execute(sql, params)` and `await connection.query(sql)`: a rejected
statement leaves the store as it was. -/
def execute (env : Env) (q : Statement) : Step QueryResult := fun w =>
  match env.statementError with
  | some e => (.error e, w)
  | none => (.ok (q.run w.store).1, { w with store := (q.run w.store).2 })

/-- Calls `connection.end()` and `connection.release()`: one connection fewer is held. -/
def release : Step Unit := fun w =>
  (.ok (), { w with connections := w.connections - 1 })

/-- Call `res.status(code).send(text)`. -/
def send (code : Nat) (text : String) : Step Response := fun w =>
  (.ok { status := code, body := .text text }, w)

/-- Call `res.json(rows)`: status 200 with the value as body. -/
def json (value : QueryResult) : Step Response := fun w =>
  (.ok { status := 200, body := .json value }, w)

/-- Sequencing of two awaited steps: an error of the first skips the second. -/
def andThen {α β : Type} (x : Step α) (f : α → Step β) : Step β := fun w =>
  match x w with
  | (.ok a, w1) => f a w1
  | (.error e, w1) => (.error e, w1)

/-- The `try`/`catch` of a handler: an error of `body` is passed to `handler`, with the world
the body left. -/
def tryCatch {α : Type} (body : Step α) (handler : DbError → Step α) : Step α := fun w =>
  match body w with
  | (.ok a, w1) => (.ok a, w1)
  | (.error e, w1) => handler e w1

/-! ## The handlers -/

/-- The body of `app.post('/users')`: `name`, `email` and `password` of `req.body`. -/
structure CreateRequest where
  name : String
  email : String
  password : String
deriving DecidableEq, Repr

/-- The route parameter `id` and the body of `app.put('/users/:id')`. -/
structure UpdateRequest where
  id : Nat
  name : String
  email : String
  password : String
deriving DecidableEq, Repr

/-- Handler `app.get('/', ...)`. -/
def getRoot (env : Env) : Step Response :=
  tryCatch
    (andThen (getConnection env) fun _ =>
     andThen (execute env .selectApple) fun rows =>
     andThen release fun _ =>
     json rows)
    (fun _ => send 500 "Internal Server Error")

/-- The `try`/`catch` statement of handler `app.post('/users', ...)`, run with the `name`,
`email` and `password` that the line before it took from `req.body`; the handler with that
line is `postUsersHandler`. -/
def postUsers (env : Env) (req : CreateRequest) : Step Response :=
  tryCatch
    (andThen (getConnection env) fun _ =>
     andThen (execute env (.insertUser req.name req.email req.password)) fun _ =>
     andThen release fun _ =>
     send 201 "User added successfully.")
    (fun _ => send 500 "Internal Server Error")

/-- The `try`/`catch` statement of handler `app.put('/users/:id', ...)`, run with the `userId`
of the route and the `name`, `email` and `password` that the line before it took from
`req.body`; the handler with that line is `putUsersHandler`. -/
def putUsers (env : Env) (req : UpdateRequest) : Step Response :=
  tryCatch
    (andThen (getConnection env) fun _ =>
     andThen (execute env (.updateUser req.name req.email req.password req.id)) fun _ =>
     andThen release fun _ =>
     send 200 "User updated successfully.")
    (fun _ => send 500 "Internal Server Error")

/-- Handler `app.delete('/users/:id', ...)`: it reads `req.params.id` and nothing of
`req.body`. -/
def deleteUsers (env : Env) (userId : Nat) : Step Response :=
  tryCatch
    (andThen (getConnection env) fun _ =>
     andThen (execute env (.deleteUser userId)) fun _ =>
     andThen release fun _ =>
     send 200 "User deleted successfully.")
    (fun _ => send 500 "Internal Server Error")

/-- An exception that leaves a handler: the `TypeError` of a destructuring, or an error of the
driver that no `catch` took. -/
inductive Uncaught where
  | typeError (message : String)
  | storage (e : DbError)
deriving DecidableEq, Repr

/-- A request to `app.post('/users')`: `body` is `req.body`, `none` when it is `undefined`. -/
structure PostRequest where
  body : Option CreateRequest
deriving DecidableEq, Repr

/-- A request to `app.put('/users/:id')`: the route parameter `id`, and `req.body`, `none`
when it is `undefined`. -/
structure PutRequest where
  id : Nat
  body : Option CreateRequest
deriving DecidableEq, Repr

/-- The outcome of a `try`/`catch` statement as the outcome of the handler it ends: an error
the statement lets through leaves the handler. -/
def leave (out : Except DbError Response × World) : Except Uncaught Response × World :=
  match out with
  | (.ok r, w) => (.ok r, w)
  | (.error e, w) => (.error (.storage e), w)

/-- Handler `app.post('/users', ...)`, whole: `const { name, email, password } = req.body`
stands before `try` and throws a `TypeError` when `req.body` is `undefined`; the `try`/`catch`
statement follows. -/
def postUsersHandler (env : Env) (req : PostRequest) (w : World) :
    Except Uncaught Response × World :=
  match req.body with
  | none =>
      (.error (.typeError
        "Cannot destructure property 'name' of 'req.body' as it is undefined."), w)
  | some fields => leave (postUsers env fields w)

/-- Handler `app.put('/users/:id', ...)`, whole: `const userId = req.params.id` and
`const { name, email, password } = req.body` stand before `try`, the second throws a
`TypeError` when `req.body` is `undefined`; the `try`/`catch` statement follows. -/
def putUsersHandler (env : Env) (req : PutRequest) (w : World) :
    Except Uncaught Response × World :=
  match req.body with
  | none =>
      (.error (.typeError
        "Cannot destructure property 'name' of 'req.body' as it is undefined."), w)
  | some fields =>
      leave (putUsers env ⟨req.id, fields.name, fields.email, fields.password⟩ w)

/-- The status of the response a whole handler ended with, `none` when an exception left
it. -/
def handlerStatus (out : Except Uncaught Response × World) : Option Nat :=
  match out.1 with
  | .ok r => some r.status
  | .error _ => none

/-- The environment of a request that the server serves without error. -/
def Env.healthy : Env := { connectError := none, statementError := none }

/-- The status of the response a handler run ended with, `none` when an exception escaped. -/
def statusOf (out : Except DbError Response × World) : Option Nat :=
  match out.1 with
  | .ok r => some r.status
  | .error _ => none

/-- The records of the response a handler run ended with. -/
def recordsOf (out : Except DbError Response × World) : List AppleRow :=
  match out.1 with
  | .ok r => r.records
  | .error _ => []

/-- The condition under which the server serves a request: the connection opens and the
statement is accepted. -/
def Env.Served (env : Env) : Prop :=
  env.connectError = none ∧ env.statementError = none

instance (env : Env) : Decidable env.Served := by
  unfold Env.Served
  infer_instance

/-- The invariant an `AUTO_INCREMENT` key maintains: every id of the table is below the
counter. -/
def UsersTable.BelowCounter (t : UsersTable) : Prop :=
  ∀ r ∈ t.rows, r.id < t.nextId

/-! ## Example states -/

/-- Both tables empty, the counter of `users` at 1, no connection held. -/
def emptyWorld : World :=
  { store := { apple := [], users := { rows := [], nextId := 1 } }, connections := 0 }

/-- Table `users` holds Alice with id 1; table `apple` is empty. -/
def aliceWorld : World :=
  { store := { apple := [],
               users := { rows := [⟨1, "Alice", "a@x.com", "pw1"⟩], nextId := 2 } },
    connections := 0 }

/-- Both tables hold a row with id 2. -/
def bobWorld : World :=
  { store := { apple := [⟨some 2, "Bob", "b@x.com", "pw2"⟩],
               users := { rows := [⟨2, "Bob", "b@x.com", "pw2"⟩], nextId := 3 } },
    connections := 0 }

/-- As `emptyWorld`, with the counter of `users` at 5. -/
def laterWorld : World :=
  { store := { apple := [], users := { rows := [], nextId := 5 } }, connections := 0 }

/-- An environment in which the connection opens and the server rejects the statement. -/
def rejectingEnv : Env :=
  { connectError := none, statementError := some ⟨"ER_NO_SUCH_TABLE"⟩ }

/-- An environment in which the connection is refused. -/
def refusingEnv : Env :=
  { connectError := some ⟨"ECONNREFUSED"⟩, statementError := none }

/-! ## The scenario of the specification, run through the handlers -/

/-- The world after `POST /users` for Alice on the empty store. -/
def afterAlice : World :=
  (postUsers Env.healthy ⟨"Alice", "a@x.com", "pw1"⟩ emptyWorld).2

/-- The world after `POST /users` for Bob, following Alice. -/
def afterBob : World :=
  (postUsers Env.healthy ⟨"Bob", "b@x.com", "pw2"⟩ afterAlice).2

/-- The world after `PUT /users/1` with the new values of Alice. -/
def afterUpdate : World :=
  (putUsers Env.healthy ⟨1, "Alice2", "a2@x.com", "pw1b"⟩ afterBob).2

/-- The world after `DELETE /users/2`. -/
def afterDelete : World :=
  (deleteUsers Env.healthy 2 afterUpdate).2

end CrudApi

/-! # The other fragments of `src/App.js` that the claims name -/

namespace ErrorHandling

/-- Function `divide(a, b)` of "Basic Error Handling": it throws
`new Error('Division by zero is not allowed.')` when `b === 0` and returns `a / b` otherwise.
A JavaScript number is an IEEE 754 double, as `Float` is: `===` on two numbers is the IEEE
comparison (both zeros are equal to `0`, `NaN` is equal to nothing) and `/` the IEEE quotient. -/
def divide (a b : Float) : Except String Float :=
  if b == 0 then .error "Division by zero is not allowed." else .ok (a / b)

end ErrorHandling

namespace QueryParameters

/-- The value of `queryObject.name` in `url.parse(req.url, true).query`: `undefined` when the
URL has no `name` parameter, a string when it has one, an array of strings when it has
several. -/
inductive QueryValue where
  | undefined
  | single (s : String)
  | many (values : List String)
deriving DecidableEq, Repr

/-- Truthiness, as `||` tests it: `undefined` and the empty string are falsy, every array is
truthy. -/
def QueryValue.truthy : QueryValue → Bool
  | .undefined => false
  | .single s => decide (s ≠ "")
  | .many _ => true

/-- The text a template literal puts for the value: an array gives its elements joined by
commas. -/
def QueryValue.toText : QueryValue → String
  | .undefined => "undefined"
  | .single s => s
  | .many values => ",".intercalate values

/-- The response of the server: `res.writeHead(status, headers)` and `res.end(body)`. -/
structure Reply where
  status : Nat
  contentType : String
  body : String
deriving DecidableEq, Repr

/-- The outcome of `url.parse(req.url, true)` on the target of a request: the library throws
on a target it does not accept, and yields the query object otherwise, given here by its
`name`. -/
inductive Parsed where
  | throws (message : String)
  | query (name : QueryValue)
deriving DecidableEq, Repr

/-- The lines of the handler after the parse: `const name = queryObject.name || 'Guest'`, then
status 200, content type `text/plain` and the body `Hello, ${name}!`. -/
def greet (queryName : QueryValue) : Reply :=
  let name := if queryName.truthy then queryName else .single "Guest"
  { status := 200, contentType := "text/plain", body := "Hello, " ++ name.toText ++ "!" }

/-- The request handler of "Working with Query Parameters": `url.parse(req.url, true)` is not
guarded, so what it throws leaves the handler and no response is written; otherwise the
handler answers `greet` of the parsed `name`. -/
def handler (parsed : Parsed) : Except String Reply :=
  match parsed with
  | .throws message => .error message
  | .query queryName => .ok (greet queryName)

end QueryParameters

namespace FileUpload

/-- The `file` argument of the Multer callbacks, by the one field the source reads. -/
structure File where
  originalname : String
deriving DecidableEq, Repr

/-- The `filename` callback of `multer.diskStorage`: it hands
`Date.now() + '-' + file.originalname` to `cb`. `now` is the value `Date.now()` returns when
the callback runs, a number of milliseconds. -/
def filename (now : Nat) (file : File) : String :=
  toString now ++ "-" ++ file.originalname

/-- The names given to a sequence of uploads, each with the clock value at its callback. -/
def filenames (uploads : List (Nat × File)) : List String :=
  uploads.map fun u => filename u.1 u.2

/-- Two uploads of files named `a.txt` whose callbacks run in the same millisecond. -/
def sameMillisecond : List (Nat × File) :=
  [(1700000000000, ⟨"a.txt"⟩), (1700000000000, ⟨"a.txt"⟩)]

end FileUpload

namespace Authentication

/-- The user object the verify callback passes on success: `{ id: 1, username: 'user' }`. -/
structure AuthUser where
  id : Nat
  username : String
deriving DecidableEq, Repr

/-- One call of `done`: the error (`none` for `null`), the user (`none` for `false`) and the
message of the info object, when there is one. -/
structure DoneCall where
  error : Option String
  user : Option AuthUser
  message : Option String
deriving DecidableEq, Repr

/-- The verify callback of the `LocalStrategy`: `done(null, { id: 1, username: 'user' })` when
`username === 'user' && password === 'password'`, and
`done(null, false, { message: 'Incorrect username or password.' })` otherwise. -/
def verify (username password : String) : DoneCall :=
  if username = "user" ∧ password = "password" then
    { error := none, user := some { id := 1, username := "user" }, message := none }
  else
    { error := none, user := none, message := some "Incorrect username or password." }

end Authentication

namespace CrudApi

/-! ## How each handler runs, by case of the environment -/

theorem postUsers_served (env : Env) (req : CreateRequest) (w : World) (h : env.Served) :
    postUsers env req w =
      (.ok ⟨201, .text "User added successfully."⟩,
       { w with store := { w.store with
           users := w.store.users.insert req.name req.email req.password } }) := by
  obtain ⟨hc, hs⟩ := h
  simp [postUsers, tryCatch, andThen, getConnection, execute, release, send, Statement.run,
    hc, hs]

theorem postUsers_refused (env : Env) (req : CreateRequest) (w : World) (e : DbError)
    (hc : env.connectError = some e) :
    postUsers env req w = (.ok ⟨500, .text "Internal Server Error"⟩, w) := by
  simp [postUsers, tryCatch, andThen, getConnection, send, hc]

theorem postUsers_rejected (env : Env) (req : CreateRequest) (w : World) (e : DbError)
    (hc : env.connectError = none) (hs : env.statementError = some e) :
    postUsers env req w =
      (.ok ⟨500, .text "Internal Server Error"⟩, { w with connections := w.connections + 1 }) := by
  simp [postUsers, tryCatch, andThen, getConnection, execute, send, hc, hs]

theorem putUsers_served (env : Env) (req : UpdateRequest) (w : World) (h : env.Served) :
    putUsers env req w =
      (.ok ⟨200, .text "User updated successfully."⟩,
       { w with store := { w.store with
           users := w.store.users.update req.name req.email req.password req.id } }) := by
  obtain ⟨hc, hs⟩ := h
  simp [putUsers, tryCatch, andThen, getConnection, execute, release, send, Statement.run,
    hc, hs]

theorem putUsers_refused (env : Env) (req : UpdateRequest) (w : World) (e : DbError)
    (hc : env.connectError = some e) :
    putUsers env req w = (.ok ⟨500, .text "Internal Server Error"⟩, w) := by
  simp [putUsers, tryCatch, andThen, getConnection, send, hc]

theorem putUsers_rejected (env : Env) (req : UpdateRequest) (w : World) (e : DbError)
    (hc : env.connectError = none) (hs : env.statementError = some e) :
    putUsers env req w =
      (.ok ⟨500, .text "Internal Server Error"⟩, { w with connections := w.connections + 1 }) := by
  simp [putUsers, tryCatch, andThen, getConnection, execute, send, hc, hs]

theorem deleteUsers_served (env : Env) (userId : Nat) (w : World) (h : env.Served) :
    deleteUsers env userId w =
      (.ok ⟨200, .text "User deleted successfully."⟩,
       { w with store := { w.store with users := w.store.users.delete userId } }) := by
  obtain ⟨hc, hs⟩ := h
  simp [deleteUsers, tryCatch, andThen, getConnection, execute, release, send, Statement.run,
    hc, hs]

theorem deleteUsers_refused (env : Env) (userId : Nat) (w : World) (e : DbError)
    (hc : env.connectError = some e) :
    deleteUsers env userId w = (.ok ⟨500, .text "Internal Server Error"⟩, w) := by
  simp [deleteUsers, tryCatch, andThen, getConnection, send, hc]

theorem deleteUsers_rejected (env : Env) (userId : Nat) (w : World) (e : DbError)
    (hc : env.connectError = none) (hs : env.statementError = some e) :
    deleteUsers env userId w =
      (.ok ⟨500, .text "Internal Server Error"⟩, { w with connections := w.connections + 1 }) := by
  simp [deleteUsers, tryCatch, andThen, getConnection, execute, send, hc, hs]

theorem getRoot_served (env : Env) (w : World) (h : env.Served) :
    getRoot env w = (.ok ⟨200, .json (.rows w.store.apple)⟩, w) := by
  obtain ⟨hc, hs⟩ := h
  simp [getRoot, tryCatch, andThen, getConnection, execute, release, json, Statement.run,
    hc, hs]

theorem getRoot_refused (env : Env) (w : World) (e : DbError)
    (hc : env.connectError = some e) :
    getRoot env w = (.ok ⟨500, .text "Internal Server Error"⟩, w) := by
  simp [getRoot, tryCatch, andThen, getConnection, send, hc]

theorem getRoot_rejected (env : Env) (w : World) (e : DbError)
    (hc : env.connectError = none) (hs : env.statementError = some e) :
    getRoot env w =
      (.ok ⟨500, .text "Internal Server Error"⟩, { w with connections := w.connections + 1 }) := by
  simp [getRoot, tryCatch, andThen, getConnection, execute, send, hc, hs]

/-- An environment either serves the request, refuses the connection, or accepts the
connection and rejects the statement. -/
theorem Env.cases (env : Env) :
    env.Served ∨ (∃ e, env.connectError = some e) ∨
      (env.connectError = none ∧ ∃ e, env.statementError = some e) := by
  obtain ⟨c, s⟩ := env
  cases c <;> cases s <;> simp [Env.Served]

theorem Env.healthy_served : Env.healthy.Served := ⟨rfl, rfl⟩

/-! ## Responses as a function of the environment -/

theorem not_served_of_refused {env : Env} {e : DbError} (hc : env.connectError = some e) :
    ¬ env.Served := by
  simp [Env.Served, hc]

theorem not_served_of_rejected {env : Env} {e : DbError} (hs : env.statementError = some e) :
    ¬ env.Served := by
  simp [Env.Served, hs]

theorem postUsers_response (env : Env) (req : CreateRequest) (w : World) :
    (postUsers env req w).1 =
      .ok (if env.Served then ⟨201, .text "User added successfully."⟩
           else ⟨500, .text "Internal Server Error"⟩) := by
  rcases env.cases with h | ⟨e, hc⟩ | ⟨hc, e, hs⟩
  · rw [postUsers_served env req w h, if_pos h]
  · rw [postUsers_refused env req w e hc, if_neg (not_served_of_refused hc)]
  · rw [postUsers_rejected env req w e hc hs, if_neg (not_served_of_rejected hs)]

theorem putUsers_response (env : Env) (req : UpdateRequest) (w : World) :
    (putUsers env req w).1 =
      .ok (if env.Served then ⟨200, .text "User updated successfully."⟩
           else ⟨500, .text "Internal Server Error"⟩) := by
  rcases env.cases with h | ⟨e, hc⟩ | ⟨hc, e, hs⟩
  · rw [putUsers_served env req w h, if_pos h]
  · rw [putUsers_refused env req w e hc, if_neg (not_served_of_refused hc)]
  · rw [putUsers_rejected env req w e hc hs, if_neg (not_served_of_rejected hs)]

theorem deleteUsers_response (env : Env) (userId : Nat) (w : World) :
    (deleteUsers env userId w).1 =
      .ok (if env.Served then ⟨200, .text "User deleted successfully."⟩
           else ⟨500, .text "Internal Server Error"⟩) := by
  rcases env.cases with h | ⟨e, hc⟩ | ⟨hc, e, hs⟩
  · rw [deleteUsers_served env userId w h, if_pos h]
  · rw [deleteUsers_refused env userId w e hc, if_neg (not_served_of_refused hc)]
  · rw [deleteUsers_rejected env userId w e hc hs, if_neg (not_served_of_rejected hs)]

theorem getRoot_response (env : Env) (w : World) :
    (getRoot env w).1 =
      .ok (if env.Served then ⟨200, .json (.rows w.store.apple)⟩
           else ⟨500, .text "Internal Server Error"⟩) := by
  rcases env.cases with h | ⟨e, hc⟩ | ⟨hc, e, hs⟩
  · rw [getRoot_served env w h, if_pos h]
  · rw [getRoot_refused env w e hc, if_neg (not_served_of_refused hc)]
  · rw [getRoot_rejected env w e hc hs, if_neg (not_served_of_rejected hs)]

theorem statusOf_ok (r : Response) (w : World) :
    statusOf ((.ok r : Except DbError Response), w) = some r.status := rfl

theorem postUsers_status (env : Env) (req : CreateRequest) (w : World) :
    statusOf (postUsers env req w) = some (if env.Served then 201 else 500) := by
  unfold statusOf
  rw [postUsers_response]
  split_ifs <;> rfl

theorem putUsers_status (env : Env) (req : UpdateRequest) (w : World) :
    statusOf (putUsers env req w) = some (if env.Served then 200 else 500) := by
  unfold statusOf
  rw [putUsers_response]
  split_ifs <;> rfl

theorem deleteUsers_status (env : Env) (userId : Nat) (w : World) :
    statusOf (deleteUsers env userId w) = some (if env.Served then 200 else 500) := by
  unfold statusOf
  rw [deleteUsers_response]
  split_ifs <;> rfl

theorem served_of_postUsers_201 {env : Env} {req : CreateRequest} {w : World}
    (h : statusOf (postUsers env req w) = some 201) : env.Served := by
  rw [postUsers_status] at h
  by_contra hn
  simp [hn] at h

theorem served_of_putUsers_200 {env : Env} {req : UpdateRequest} {w : World}
    (h : statusOf (putUsers env req w) = some 200) : env.Served := by
  rw [putUsers_status] at h
  by_contra hn
  simp [hn] at h

theorem served_of_deleteUsers_200 {env : Env} {userId : Nat} {w : World}
    (h : statusOf (deleteUsers env userId w) = some 200) : env.Served := by
  rw [deleteUsers_status] at h
  by_contra hn
  simp [hn] at h

/-- The read handler looks at table `apple` only: two worlds with the same `apple` table get
the same response. -/
theorem getRoot_response_congr (env : Env) (w w1 : World)
    (h : w1.store.apple = w.store.apple) : (getRoot env w1).1 = (getRoot env w).1 := by
  rw [getRoot_response, getRoot_response, h]

/-! ## Table lemmas -/

theorem UsersTable.update_ids (t : UsersTable) (name email password : String) (id : Nat) :
    (t.update name email password id).rows.map User.id = t.rows.map User.id := by
  simp only [UsersTable.update, List.map_map]
  apply List.map_congr_left
  intro r _
  simp only [Function.comp]
  split_ifs <;> rfl

theorem UsersTable.update_absent (t : UsersTable) (name email password : String) (id : Nat)
    (h : ∀ r ∈ t.rows, r.id ≠ id) : t.update name email password id = t := by
  have : (t.rows.map fun r : User =>
      if r.id = id then { r with name := name, email := email, password := password } else r)
      = t.rows := by
    conv_rhs => rw [← List.map_id t.rows]
    apply List.map_congr_left
    intro r hr
    simp [h r hr]
  unfold UsersTable.update
  rw [this]

theorem UsersTable.delete_absent (t : UsersTable) (id : Nat)
    (h : ∀ r ∈ t.rows, r.id ≠ id) : t.delete id = t := by
  have : (t.rows.filter fun r : User => decide (r.id ≠ id)) = t.rows := by
    rw [List.filter_eq_self]
    intro r hr
    simpa using h r hr
  unfold UsersTable.delete
  rw [this]

/-! ## What each handler leaves in the store -/

theorem postUsers_apple (env : Env) (req : CreateRequest) (w : World) :
    (postUsers env req w).2.store.apple = w.store.apple := by
  rcases env.cases with h | ⟨e, hc⟩ | ⟨hc, e, hs⟩
  · rw [postUsers_served env req w h]
  · rw [postUsers_refused env req w e hc]
  · rw [postUsers_rejected env req w e hc hs]

theorem putUsers_apple (env : Env) (req : UpdateRequest) (w : World) :
    (putUsers env req w).2.store.apple = w.store.apple := by
  rcases env.cases with h | ⟨e, hc⟩ | ⟨hc, e, hs⟩
  · rw [putUsers_served env req w h]
  · rw [putUsers_refused env req w e hc]
  · rw [putUsers_rejected env req w e hc hs]

theorem deleteUsers_apple (env : Env) (userId : Nat) (w : World) :
    (deleteUsers env userId w).2.store.apple = w.store.apple := by
  rcases env.cases with h | ⟨e, hc⟩ | ⟨hc, e, hs⟩
  · rw [deleteUsers_served env userId w h]
  · rw [deleteUsers_refused env userId w e hc]
  · rw [deleteUsers_rejected env userId w e hc hs]

theorem putUsers_users (env : Env) (req : UpdateRequest) (w : World) :
    (putUsers env req w).2.store.users =
      if env.Served then w.store.users.update req.name req.email req.password req.id
      else w.store.users := by
  rcases env.cases with h | ⟨e, hc⟩ | ⟨hc, e, hs⟩
  · rw [putUsers_served env req w h, if_pos h]
  · rw [putUsers_refused env req w e hc, if_neg (not_served_of_refused hc)]
  · rw [putUsers_rejected env req w e hc hs, if_neg (not_served_of_rejected hs)]

theorem getRoot_store (env : Env) (w : World) : (getRoot env w).2.store = w.store := by
  rcases env.cases with h | ⟨e, hc⟩ | ⟨hc, e, hs⟩
  · rw [getRoot_served env w h]
  · rw [getRoot_refused env w e hc]
  · rw [getRoot_rejected env w e hc hs]

theorem UsersTable.update_rows_length (t : UsersTable) (name email password : String)
    (id : Nat) : (t.update name email password id).rows.length = t.rows.length := by
  simp [UsersTable.update]

theorem UsersTable.update_getElem? (t : UsersTable) (name email password : String)
    (id k : Nat) (r : User) (hk : t.rows[k]? = some r) (hr : r.id ≠ id) :
    (t.update name email password id).rows[k]? = some r := by
  simp [UsersTable.update, List.getElem?_map, hk, hr]

theorem UsersTable.update_others (t : UsersTable) (name email password : String) (id : Nat) :
    (t.update name email password id).rows.filter (fun r => decide (r.id ≠ id)) =
      t.rows.filter (fun r => decide (r.id ≠ id)) := by
  unfold UsersTable.update
  generalize t.rows = rows
  induction rows with
  | nil => rfl
  | cons r rs ih =>
    by_cases h : r.id = id
    · simpa [List.filter_cons, h] using ih
    · simpa [List.filter_cons, h] using ih

/-! ## The statements keep every id below the counter -/

theorem UsersTable.insert_belowCounter (t : UsersTable) (name email password : String)
    (h : t.BelowCounter) : (t.insert name email password).BelowCounter := by
  intro r hr
  simp only [UsersTable.insert, List.mem_append, List.mem_singleton] at hr
  rcases hr with hr | hr
  · exact Nat.lt_succ_of_lt (h r hr)
  · subst hr
    exact Nat.lt_succ_self _

theorem UsersTable.update_belowCounter (t : UsersTable) (name email password : String)
    (id : Nat) (h : t.BelowCounter) : (t.update name email password id).BelowCounter := by
  intro r hr
  simp only [UsersTable.update, List.mem_map] at hr
  obtain ⟨r0, hr0, hr⟩ := hr
  have h0 := h r0 hr0
  split_ifs at hr <;> subst hr <;> exact h0

theorem UsersTable.delete_belowCounter (t : UsersTable) (id : Nat) (h : t.BelowCounter) :
    (t.delete id).BelowCounter := by
  intro r hr
  simp only [UsersTable.delete, List.mem_filter] at hr
  exact h r hr.1

/-! ## C1: create, then read -/

/-- C1 as stated fails. On the empty store the create handler answers 201 for Alice, and the read
handler run next answers 200 with an empty list: it selects from table `apple`, and the create
handler inserted into table `users`. -/
theorem create_then_read_counterexample :
    statusOf (postUsers Env.healthy ⟨"Alice", "a@x.com", "pw1"⟩ emptyWorld) = some 201 ∧
    (getRoot Env.healthy (postUsers Env.healthy ⟨"Alice", "a@x.com", "pw1"⟩ emptyWorld).2).1 =
      .ok ⟨200, .json (.rows [])⟩ ∧
    ¬ ∃ r ∈ recordsOf
        (getRoot Env.healthy (postUsers Env.healthy ⟨"Alice", "a@x.com", "pw1"⟩ emptyWorld).2),
      r.name = "Alice" ∧ r.email = "a@x.com" ∧ r.password = "pw1" := by
  refine ⟨rfl, rfl, ?_⟩
  rintro ⟨r, hr, -⟩
  exact absurd hr (List.not_mem_nil r)

/-- C1 amended. When the create handler answers 201, table `users` afterwards holds a record whose
name, email and password are the three inputs; table `apple` is as before, so the read handler
answers what it would have answered before the create. -/
theorem create_then_users_table (env : Env) (req : CreateRequest) (w : World)
    (h : statusOf (postUsers env req w) = some 201) :
    (∃ r ∈ (postUsers env req w).2.store.users.rows,
      r.name = req.name ∧ r.email = req.email ∧ r.password = req.password) ∧
    ∀ env2 : Env, (getRoot env2 (postUsers env req w).2).1 = (getRoot env2 w).1 := by
  refine ⟨?_, fun env2 => getRoot_response_congr env2 w _ (postUsers_apple env req w)⟩
  rw [postUsers_served env req w (served_of_postUsers_201 h)]
  exact ⟨⟨w.store.users.nextId, req.name, req.email, req.password⟩,
    by simp [UsersTable.insert], rfl, rfl, rfl⟩

theorem create_then_users_table_witness :
    statusOf (postUsers Env.healthy ⟨"Alice", "a@x.com", "pw1"⟩ emptyWorld) = some 201 ∧
    (∃ r ∈ (postUsers Env.healthy ⟨"Alice", "a@x.com", "pw1"⟩ emptyWorld).2.store.users.rows,
      r.name = "Alice" ∧ r.email = "a@x.com" ∧ r.password = "pw1") ∧
    ∀ env2 : Env,
      (getRoot env2 (postUsers Env.healthy ⟨"Alice", "a@x.com", "pw1"⟩ emptyWorld).2).1 =
        (getRoot env2 emptyWorld).1 :=
  ⟨rfl, create_then_users_table Env.healthy ⟨"Alice", "a@x.com", "pw1"⟩ emptyWorld rfl⟩

/-! ## C2: update, then read -/

/-- C2 as stated fails. Table `users` holds Alice with id 1; the update handler answers 200 for id
1, and the read handler run next answers with the empty table `apple`: no record with id 1. -/
theorem update_then_read_counterexample :
    (∃ r ∈ aliceWorld.store.users.rows, r.id = 1) ∧
    statusOf (putUsers Env.healthy ⟨1, "Alice2", "a2@x.com", "pw1b"⟩ aliceWorld) = some 200 ∧
    ¬ ∃ r ∈ recordsOf
        (getRoot Env.healthy (putUsers Env.healthy ⟨1, "Alice2", "a2@x.com", "pw1b"⟩ aliceWorld).2),
      r.id = some 1 ∧ r.name = "Alice2" ∧ r.email = "a2@x.com" ∧ r.password = "pw1b" := by
  refine ⟨⟨⟨1, "Alice", "a@x.com", "pw1"⟩, List.mem_singleton.mpr rfl, rfl⟩, rfl, ?_⟩
  rintro ⟨r, hr, -⟩
  exact absurd hr (List.not_mem_nil r)

/-- C2 amended. When table `users` holds a record with the request's id and the update handler
answers 200, table `users` afterwards holds a record with that id, and every record with that id
has the request's name, email and password, all three; table `apple` is as before, so the read
handler answers what it would have answered before the update. -/
theorem update_then_users_table (env : Env) (req : UpdateRequest) (w : World)
    (hex : ∃ r ∈ w.store.users.rows, r.id = req.id)
    (h : statusOf (putUsers env req w) = some 200) :
    (∃ r ∈ (putUsers env req w).2.store.users.rows, r.id = req.id) ∧
    (∀ r ∈ (putUsers env req w).2.store.users.rows, r.id = req.id →
      r.name = req.name ∧ r.email = req.email ∧ r.password = req.password) ∧
    ∀ env2 : Env, (getRoot env2 (putUsers env req w).2).1 = (getRoot env2 w).1 := by
  refine ⟨?_, ?_, fun env2 => getRoot_response_congr env2 w _ (putUsers_apple env req w)⟩
  · rw [putUsers_served env req w (served_of_putUsers_200 h)]
    obtain ⟨r, hr, hid⟩ := hex
    refine ⟨{ r with name := req.name, email := req.email, password := req.password }, ?_, hid⟩
    simp only [UsersTable.update, List.mem_map]
    exact ⟨r, hr, by simp [hid]⟩
  · rw [putUsers_served env req w (served_of_putUsers_200 h)]
    intro r hr hid
    simp only [UsersTable.update, List.mem_map] at hr
    obtain ⟨r0, -, hr0⟩ := hr
    by_cases h0 : r0.id = req.id
    · rw [if_pos h0] at hr0
      subst hr0
      exact ⟨rfl, rfl, rfl⟩
    · rw [if_neg h0] at hr0
      subst hr0
      exact absurd hid h0

theorem update_then_users_table_witness :
    (∃ r ∈ aliceWorld.store.users.rows, r.id = 1) ∧
    statusOf (putUsers Env.healthy ⟨1, "Alice2", "a2@x.com", "pw1b"⟩ aliceWorld) = some 200 ∧
    (∃ r ∈ (putUsers Env.healthy ⟨1, "Alice2", "a2@x.com", "pw1b"⟩ aliceWorld).2.store.users.rows,
      r.id = 1) ∧
    (∀ r ∈ (putUsers Env.healthy ⟨1, "Alice2", "a2@x.com", "pw1b"⟩ aliceWorld).2.store.users.rows,
      r.id = 1 → r.name = "Alice2" ∧ r.email = "a2@x.com" ∧ r.password = "pw1b") ∧
    ∀ env2 : Env,
      (getRoot env2 (putUsers Env.healthy ⟨1, "Alice2", "a2@x.com", "pw1b"⟩ aliceWorld).2).1 =
        (getRoot env2 aliceWorld).1 :=
  ⟨⟨⟨1, "Alice", "a@x.com", "pw1"⟩, List.mem_singleton.mpr rfl, rfl⟩, rfl,
    update_then_users_table Env.healthy ⟨1, "Alice2", "a2@x.com", "pw1b"⟩ aliceWorld
      ⟨⟨1, "Alice", "a@x.com", "pw1"⟩, List.mem_singleton.mpr rfl, rfl⟩ rfl⟩

/-! ## C3: delete, then read -/

/-- C3 as stated fails. Both tables hold a row with id 2; the delete handler answers 200 for id 2,
and the read handler run next still returns the row with id 2 of table `apple`. -/
theorem delete_then_read_counterexample :
    statusOf (deleteUsers Env.healthy 2 bobWorld) = some 200 ∧
    ∃ r ∈ recordsOf (getRoot Env.healthy (deleteUsers Env.healthy 2 bobWorld).2),
      r.id = some 2 :=
  ⟨rfl, ⟨some 2, "Bob", "b@x.com", "pw2"⟩, List.mem_singleton.mpr rfl, rfl⟩

/-- C3 amended. When the delete handler answers 200, table `users` afterwards holds no record with
that id; table `apple` is as before, so the read handler answers what it would have answered
before the delete. -/
theorem delete_then_users_table (env : Env) (userId : Nat) (w : World)
    (h : statusOf (deleteUsers env userId w) = some 200) :
    (∀ r ∈ (deleteUsers env userId w).2.store.users.rows, r.id ≠ userId) ∧
    ∀ env2 : Env, (getRoot env2 (deleteUsers env userId w).2).1 = (getRoot env2 w).1 := by
  refine ⟨?_, fun env2 => getRoot_response_congr env2 w _ (deleteUsers_apple env userId w)⟩
  rw [deleteUsers_served env userId w (served_of_deleteUsers_200 h)]
  intro r hr
  simp only [UsersTable.delete, List.mem_filter] at hr
  simpa using hr.2

theorem delete_then_users_table_witness :
    statusOf (deleteUsers Env.healthy 2 bobWorld) = some 200 ∧
    (∀ r ∈ (deleteUsers Env.healthy 2 bobWorld).2.store.users.rows, r.id ≠ 2) ∧
    ∀ env2 : Env,
      (getRoot env2 (deleteUsers Env.healthy 2 bobWorld).2).1 = (getRoot env2 bobWorld).1 :=
  ⟨rfl, delete_then_users_table Env.healthy 2 bobWorld rfl⟩

/-! ## C4: update and delete of an id that is not there -/

/-- C4. When no record of table `users` has the id, and the server opens the connection and
accepts the statement, the update handler and the delete handler each answer 200 (the `catch`
branch is not taken) and leave the world, store included, exactly as it was. -/
theorem absent_id_update_delete (env : Env) (w : World) (id : Nat)
    (name email password : String) (hserved : env.Served)
    (habsent : ∀ r ∈ w.store.users.rows, r.id ≠ id) :
    putUsers env ⟨id, name, email, password⟩ w =
      (.ok ⟨200, .text "User updated successfully."⟩, w) ∧
    deleteUsers env id w = (.ok ⟨200, .text "User deleted successfully."⟩, w) := by
  constructor
  · rw [putUsers_served env _ w hserved]
    show (_, ({ w with store := { w.store with
      users := w.store.users.update name email password id } } : World)) = _
    rw [UsersTable.update_absent _ _ _ _ _ habsent]
  · rw [deleteUsers_served env id w hserved, UsersTable.delete_absent _ _ habsent]

theorem absent_id_update_delete_witness :
    Env.healthy.Served ∧ (∀ r ∈ aliceWorld.store.users.rows, r.id ≠ 7) ∧
    putUsers Env.healthy ⟨7, "Eve", "e@x.com", "pw7"⟩ aliceWorld =
      (.ok ⟨200, .text "User updated successfully."⟩, aliceWorld) ∧
    deleteUsers Env.healthy 7 aliceWorld =
      (.ok ⟨200, .text "User deleted successfully."⟩, aliceWorld) :=
  ⟨Env.healthy_served, by intro r hr; rw [List.mem_singleton.mp hr]; decide,
    absent_id_update_delete Env.healthy aliceWorld 7 "Eve" "e@x.com" "pw7" Env.healthy_served
      (by intro r hr; rw [List.mem_singleton.mp hr]; decide)⟩

/-! ## C5, C6: the status of the write handlers -/

theorem leave_world (out : Except DbError Response × World) : (leave out).2 = out.2 := by
  rcases out with ⟨o, w⟩
  cases o <;> rfl

theorem handlerStatus_leave (out : Except DbError Response × World) :
    handlerStatus (leave out) = statusOf out := by
  rcases out with ⟨o, w⟩
  cases o <;> rfl

/-- A run of the whole create handler that ends with a response is a run of its `try`/`catch`
statement on a defined body, with the same status and the same world after it. -/
theorem postUsersHandler_of_status (env : Env) (req : PostRequest) (w : World) (n : Nat)
    (h : handlerStatus (postUsersHandler env req w) = some n) :
    ∃ fields, req.body = some fields ∧ statusOf (postUsers env fields w) = some n ∧
      (postUsersHandler env req w).2 = (postUsers env fields w).2 := by
  rcases req with ⟨_ | fields⟩
  · simp [postUsersHandler, handlerStatus] at h
  · refine ⟨fields, rfl, ?_, leave_world _⟩
    rw [← handlerStatus_leave]
    exact h

/-- A run of the whole update handler that ends with a response is a run of its `try`/`catch`
statement on a defined body, with the same status and the same world after it. -/
theorem putUsersHandler_of_status (env : Env) (req : PutRequest) (w : World) (n : Nat)
    (h : handlerStatus (putUsersHandler env req w) = some n) :
    ∃ fields, req.body = some fields ∧
      statusOf (putUsers env ⟨req.id, fields.name, fields.email, fields.password⟩ w) = some n ∧
      (putUsersHandler env req w).2 =
        (putUsers env ⟨req.id, fields.name, fields.email, fields.password⟩ w).2 := by
  rcases req with ⟨id, _ | fields⟩
  · simp [putUsersHandler, handlerStatus] at h
  · refine ⟨fields, rfl, ?_, leave_world _⟩
    rw [← handlerStatus_leave]
    exact h

theorem postUsersHandler_response (env : Env) (fields : CreateRequest) (w : World) :
    (postUsersHandler env ⟨some fields⟩ w).1 =
      .ok (if env.Served then ⟨201, .text "User added successfully."⟩
           else ⟨500, .text "Internal Server Error"⟩) := by
  have h := postUsers_response env fields w
  show (leave (postUsers env fields w)).1 = _
  rcases hout : postUsers env fields w with ⟨o, w1⟩
  rw [hout] at h
  simp only at h
  subst h
  rfl

theorem putUsersHandler_response (env : Env) (id : Nat) (fields : CreateRequest) (w : World) :
    (putUsersHandler env ⟨id, some fields⟩ w).1 =
      .ok (if env.Served then ⟨200, .text "User updated successfully."⟩
           else ⟨500, .text "Internal Server Error"⟩) := by
  have h := putUsers_response env ⟨id, fields.name, fields.email, fields.password⟩ w
  show (leave (putUsers env ⟨id, fields.name, fields.email, fields.password⟩ w)).1 = _
  rcases hout : putUsers env ⟨id, fields.name, fields.email, fields.password⟩ w with ⟨o, w1⟩
  rw [hout] at h
  simp only at h
  subst h
  rfl

/-- C5 as stated fails. For a request whose `req.body` is `undefined` the destructuring before
`try` throws: a `TypeError` leaves the create handler, which answers neither 201 nor 500, in an
environment where the connection would open and the INSERT be accepted; nothing is inserted. -/
theorem postUsersHandler_undefined_body_counterexample :
    Env.healthy.Served ∧
    postUsersHandler Env.healthy ⟨none⟩ emptyWorld =
      (.error (.typeError
        "Cannot destructure property 'name' of 'req.body' as it is undefined."), emptyWorld) ∧
    handlerStatus (postUsersHandler Env.healthy ⟨none⟩ emptyWorld) = none ∧
    ¬ ∃ r : Response, (postUsersHandler Env.healthy ⟨none⟩ emptyWorld).1 = .ok r := by
  refine ⟨Env.healthy_served, rfl, rfl, ?_⟩
  rintro ⟨r, hr⟩
  exact absurd hr (by simp [postUsersHandler])

/-- C5 amended. For every request to the create handler whose `req.body` is defined, the handler
ends with a response, no exception leaves it; the response is 201 'User added successfully.' when
the connection opens and the INSERT is accepted and 500 'Internal Server Error' otherwise, so
the status is 201 exactly when both succeed. -/
theorem postUsersHandler_201_iff (env : Env) (fields : CreateRequest) (w : World) :
    (postUsersHandler env ⟨some fields⟩ w).1 =
      .ok (if env.connectError = none ∧ env.statementError = none
           then ⟨201, .text "User added successfully."⟩
           else ⟨500, .text "Internal Server Error"⟩) ∧
    (handlerStatus (postUsersHandler env ⟨some fields⟩ w) = some 201 ↔
      env.connectError = none ∧ env.statementError = none) ∧
    ∃ r : Response, (postUsersHandler env ⟨some fields⟩ w).1 = .ok r := by
  have h := postUsersHandler_response env fields w
  refine ⟨h, ?_, _, h⟩
  unfold handlerStatus
  rw [h]
  change _ ↔ env.Served
  by_cases hs : env.Served
  · simp [hs]
  · simp [hs]

/-- C6 as stated fails. For a request to the update handler whose `req.body` is `undefined` the
destructuring before `try` throws: a `TypeError` leaves the handler, which answers neither 200
nor 500, in an environment where the connection would open and the UPDATE be accepted; the
store is as before. -/
theorem putUsersHandler_undefined_body_counterexample :
    Env.healthy.Served ∧
    putUsersHandler Env.healthy ⟨1, none⟩ aliceWorld =
      (.error (.typeError
        "Cannot destructure property 'name' of 'req.body' as it is undefined."), aliceWorld) ∧
    handlerStatus (putUsersHandler Env.healthy ⟨1, none⟩ aliceWorld) = none ∧
    ¬ ∃ r : Response, (putUsersHandler Env.healthy ⟨1, none⟩ aliceWorld).1 = .ok r := by
  refine ⟨Env.healthy_served, rfl, rfl, ?_⟩
  rintro ⟨r, hr⟩
  exact absurd hr (by simp [putUsersHandler])

/-- C6 amended. For every request to the update handler whose `req.body` is defined, and for
every request to the delete handler, the handler ends with a response, no exception leaves it;
the status is 200 exactly when the connection opens and the statement is accepted, and
otherwise the response is 500 'Internal Server Error', the same for every error. -/
theorem putUsersHandler_deleteUsers_200_iff (env : Env) (id : Nat) (fields : CreateRequest)
    (userId : Nat) (w : World) :
    ((putUsersHandler env ⟨id, some fields⟩ w).1 =
        .ok (if env.connectError = none ∧ env.statementError = none
             then ⟨200, .text "User updated successfully."⟩
             else ⟨500, .text "Internal Server Error"⟩) ∧
      (handlerStatus (putUsersHandler env ⟨id, some fields⟩ w) = some 200 ↔
        env.connectError = none ∧ env.statementError = none)) ∧
    ((deleteUsers env userId w).1 =
        .ok (if env.connectError = none ∧ env.statementError = none
             then ⟨200, .text "User deleted successfully."⟩
             else ⟨500, .text "Internal Server Error"⟩) ∧
      (statusOf (deleteUsers env userId w) = some 200 ↔
        env.connectError = none ∧ env.statementError = none)) := by
  have h := putUsersHandler_response env id fields w
  refine ⟨⟨h, ?_⟩, ⟨deleteUsers_response env userId w, served_of_deleteUsers_200, fun hs => ?_⟩⟩
  · unfold handlerStatus
    rw [h]
    change _ ↔ env.Served
    by_cases hs : env.Served
    · simp [hs]
    · simp [hs]
  · rw [deleteUsers_status, if_pos (show env.Served from hs)]

/-! ## C7: the read handler -/

/-- C7. For every store the read handler, when the connection is acquired and the query accepted,
answers 200 with the rows of table `apple`, all of them and in the order of the store; otherwise
it answers 500; in every case the store is left as it was. -/
theorem getRoot_returns_table (env : Env) (w : World) :
    (getRoot env w).1 =
      .ok (if env.connectError = none ∧ env.statementError = none
           then ⟨200, .json (.rows w.store.apple)⟩
           else ⟨500, .text "Internal Server Error"⟩) ∧
    (getRoot env w).2.store = w.store :=
  ⟨getRoot_response env w, getRoot_store env w⟩

/-! ## C8: the id of a created record -/

/-- C8 as stated fails. The create handler answers the same fixed text on a store whose counter is
at 1 and on a store whose counter is at 5, while the new records got the ids 1 and 5: the response
carries no id. -/
theorem create_returns_no_id_counterexample :
    (postUsers Env.healthy ⟨"Alice", "a@x.com", "pw1"⟩ emptyWorld).1 =
      .ok ⟨201, .text "User added successfully."⟩ ∧
    (postUsers Env.healthy ⟨"Alice", "a@x.com", "pw1"⟩ laterWorld).1 =
      .ok ⟨201, .text "User added successfully."⟩ ∧
    (postUsers Env.healthy ⟨"Alice", "a@x.com", "pw1"⟩ emptyWorld).2.store.users.rows =
      [⟨1, "Alice", "a@x.com", "pw1"⟩] ∧
    (postUsers Env.healthy ⟨"Alice", "a@x.com", "pw1"⟩ laterWorld).2.store.users.rows =
      [⟨5, "Alice", "a@x.com", "pw1"⟩] :=
  ⟨rfl, rfl, rfl, rfl⟩

/-- C8 amended. A successful create answers the fixed text 'User added successfully.' and no id;
the store gives the new record the value of the counter of table `users` as id. When every id
of the table is below the counter, a served update with that id changes the record just created
and no other, and a served delete with that id removes the record just created and no other. -/
theorem created_id_addresses_new_record (env env2 : Env) (req : CreateRequest)
    (name email password : String) (w : World)
    (hbelow : ∀ r ∈ w.store.users.rows, r.id < w.store.users.nextId)
    (h : statusOf (postUsers env req w) = some 201) (h2 : env2.Served) :
    (postUsers env req w).1 = .ok ⟨201, .text "User added successfully."⟩ ∧
    (postUsers env req w).2.store.users.rows =
      w.store.users.rows ++ [⟨w.store.users.nextId, req.name, req.email, req.password⟩] ∧
    (putUsers env2 ⟨w.store.users.nextId, name, email, password⟩
        (postUsers env req w).2).2.store.users.rows =
      w.store.users.rows ++ [⟨w.store.users.nextId, name, email, password⟩] ∧
    (deleteUsers env2 w.store.users.nextId (postUsers env req w).2).2.store.users.rows =
      w.store.users.rows := by
  have hne : ∀ r ∈ w.store.users.rows, r.id ≠ w.store.users.nextId :=
    fun r hr => Nat.ne_of_lt (hbelow r hr)
  have hupd : (w.store.users.update name email password w.store.users.nextId).rows =
      w.store.users.rows := by rw [UsersTable.update_absent _ _ _ _ _ hne]
  have hdel : (w.store.users.delete w.store.users.nextId).rows = w.store.users.rows := by
    rw [UsersTable.delete_absent _ _ hne]
  simp only [UsersTable.update] at hupd
  simp only [UsersTable.delete] at hdel
  rw [postUsers_served env req w (served_of_postUsers_201 h), putUsers_served _ _ _ h2,
    deleteUsers_served _ _ _ h2]
  refine ⟨rfl, rfl, ?_, ?_⟩
  · simp only [UsersTable.update, UsersTable.insert, List.map_append, List.map_cons,
      List.map_nil, if_true]
    rw [hupd]
  · simp only [UsersTable.delete, UsersTable.insert, List.filter_append]
    rw [hdel]
    simp

theorem created_id_addresses_new_record_witness :
    (∀ r ∈ aliceWorld.store.users.rows, r.id < aliceWorld.store.users.nextId) ∧
    statusOf (postUsers Env.healthy ⟨"Bob", "b@x.com", "pw2"⟩ aliceWorld) = some 201 ∧
    Env.healthy.Served ∧
    (postUsers Env.healthy ⟨"Bob", "b@x.com", "pw2"⟩ aliceWorld).1 =
      .ok ⟨201, .text "User added successfully."⟩ ∧
    (postUsers Env.healthy ⟨"Bob", "b@x.com", "pw2"⟩ aliceWorld).2.store.users.rows =
      aliceWorld.store.users.rows ++ [⟨aliceWorld.store.users.nextId, "Bob", "b@x.com", "pw2"⟩] ∧
    (putUsers Env.healthy ⟨aliceWorld.store.users.nextId, "Bob2", "b2@x.com", "pw2b"⟩
        (postUsers Env.healthy ⟨"Bob", "b@x.com", "pw2"⟩ aliceWorld).2).2.store.users.rows =
      aliceWorld.store.users.rows ++
        [⟨aliceWorld.store.users.nextId, "Bob2", "b2@x.com", "pw2b"⟩] ∧
    (deleteUsers Env.healthy aliceWorld.store.users.nextId
        (postUsers Env.healthy ⟨"Bob", "b@x.com", "pw2"⟩ aliceWorld).2).2.store.users.rows =
      aliceWorld.store.users.rows :=
  ⟨by intro r hr; rw [List.mem_singleton.mp hr]; decide, rfl, Env.healthy_served,
    created_id_addresses_new_record Env.healthy Env.healthy ⟨"Bob", "b@x.com", "pw2"⟩
      "Bob2" "b2@x.com" "pw2b" aliceWorld
      (by intro r hr; rw [List.mem_singleton.mp hr]; decide) rfl Env.healthy_served⟩

/-! ## C9, C10: what an update leaves alone -/

/-- C9. For every store and every update request, served or not, the list of the ids of table
`users` (in order, with repetitions) is the same after the update handler as before it, and so is
the counter that assigns ids. -/
theorem putUsers_keeps_ids (env : Env) (req : UpdateRequest) (w : World) :
    (putUsers env req w).2.store.users.rows.map User.id = w.store.users.rows.map User.id ∧
    (putUsers env req w).2.store.users.nextId = w.store.users.nextId := by
  rw [putUsers_users]
  split_ifs
  · exact ⟨UsersTable.update_ids _ _ _ _ _, rfl⟩
  · exact ⟨rfl, rfl⟩

/-- C10. For every store and every update request for id `i`, served or not, table `users` has as
many records after the update handler as before it, a record whose id is not `i` is found
unchanged at its position, and the records whose id is not `i` are the same list before and
after. -/
theorem putUsers_frame (env : Env) (req : UpdateRequest) (w : World) :
    (putUsers env req w).2.store.users.rows.length = w.store.users.rows.length ∧
    (∀ (k : Nat) (r : User), w.store.users.rows[k]? = some r → r.id ≠ req.id →
      (putUsers env req w).2.store.users.rows[k]? = some r) ∧
    (putUsers env req w).2.store.users.rows.filter (fun r => decide (r.id ≠ req.id)) =
      w.store.users.rows.filter (fun r => decide (r.id ≠ req.id)) := by
  rw [putUsers_users]
  split_ifs
  · exact ⟨UsersTable.update_rows_length _ _ _ _ _,
      fun k r hk hr => UsersTable.update_getElem? _ _ _ _ _ k r hk hr,
      UsersTable.update_others _ _ _ _ _⟩
  · exact ⟨rfl, fun _ _ hk _ => hk, rfl⟩

/-! ## What a failed request leaves behind -/

theorem postUsers_store (env : Env) (req : CreateRequest) (w : World) :
    (postUsers env req w).2.store =
      if env.Served then
        { w.store with users := w.store.users.insert req.name req.email req.password }
      else w.store := by
  rcases env.cases with h | ⟨e, hc⟩ | ⟨hc, e, hs⟩
  · rw [postUsers_served env req w h, if_pos h]
  · rw [postUsers_refused env req w e hc, if_neg (not_served_of_refused hc)]
  · rw [postUsers_rejected env req w e hc hs, if_neg (not_served_of_rejected hs)]

theorem putUsers_store (env : Env) (req : UpdateRequest) (w : World) :
    (putUsers env req w).2.store =
      if env.Served then
        { w.store with users := w.store.users.update req.name req.email req.password req.id }
      else w.store := by
  rcases env.cases with h | ⟨e, hc⟩ | ⟨hc, e, hs⟩
  · rw [putUsers_served env req w h, if_pos h]
  · rw [putUsers_refused env req w e hc, if_neg (not_served_of_refused hc)]
  · rw [putUsers_rejected env req w e hc hs, if_neg (not_served_of_rejected hs)]

theorem deleteUsers_store (env : Env) (userId : Nat) (w : World) :
    (deleteUsers env userId w).2.store =
      if env.Served then { w.store with users := w.store.users.delete userId }
      else w.store := by
  rcases env.cases with h | ⟨e, hc⟩ | ⟨hc, e, hs⟩
  · rw [deleteUsers_served env userId w h, if_pos h]
  · rw [deleteUsers_refused env userId w e hc, if_neg (not_served_of_refused hc)]
  · rw [deleteUsers_rejected env userId w e hc hs, if_neg (not_served_of_rejected hs)]

theorem not_served_of_postUsers_500 {env : Env} {req : CreateRequest} {w : World}
    (h : statusOf (postUsers env req w) = some 500) : ¬ env.Served := by
  rw [postUsers_status] at h
  intro hs
  simp [hs] at h

theorem not_served_of_putUsers_500 {env : Env} {req : UpdateRequest} {w : World}
    (h : statusOf (putUsers env req w) = some 500) : ¬ env.Served := by
  rw [putUsers_status] at h
  intro hs
  simp [hs] at h

theorem not_served_of_deleteUsers_500 {env : Env} {userId : Nat} {w : World}
    (h : statusOf (deleteUsers env userId w) = some 500) : ¬ env.Served := by
  rw [deleteUsers_status] at h
  intro hs
  simp [hs] at h

/-- The number of connections held after a request, for each of the three ways the
environment can treat it: the same when the request is served or the connection refused, one
more when the statement is rejected. -/
theorem postUsers_connections (env : Env) (req : CreateRequest) (w : World) :
    (postUsers env req w).2.connections =
      if env.connectError = none ∧ env.statementError ≠ none then w.connections + 1
      else w.connections := by
  rcases env.cases with h | ⟨e, hc⟩ | ⟨hc, e, hs⟩
  · rw [postUsers_served env req w h]
    simp [h.2]
  · rw [postUsers_refused env req w e hc]
    simp [hc]
  · rw [postUsers_rejected env req w e hc hs]
    simp [hc, hs]

theorem putUsers_connections (env : Env) (req : UpdateRequest) (w : World) :
    (putUsers env req w).2.connections =
      if env.connectError = none ∧ env.statementError ≠ none then w.connections + 1
      else w.connections := by
  rcases env.cases with h | ⟨e, hc⟩ | ⟨hc, e, hs⟩
  · rw [putUsers_served env req w h]
    simp [h.2]
  · rw [putUsers_refused env req w e hc]
    simp [hc]
  · rw [putUsers_rejected env req w e hc hs]
    simp [hc, hs]

theorem deleteUsers_connections (env : Env) (userId : Nat) (w : World) :
    (deleteUsers env userId w).2.connections =
      if env.connectError = none ∧ env.statementError ≠ none then w.connections + 1
      else w.connections := by
  rcases env.cases with h | ⟨e, hc⟩ | ⟨hc, e, hs⟩
  · rw [deleteUsers_served env userId w h]
    simp [h.2]
  · rw [deleteUsers_refused env userId w e hc]
    simp [hc]
  · rw [deleteUsers_rejected env userId w e hc hs]
    simp [hc, hs]

theorem getRoot_connections (env : Env) (w : World) :
    (getRoot env w).2.connections =
      if env.connectError = none ∧ env.statementError ≠ none then w.connections + 1
      else w.connections := by
  rcases env.cases with h | ⟨e, hc⟩ | ⟨hc, e, hs⟩
  · rw [getRoot_served env w h]
    simp [h.2]
  · rw [getRoot_refused env w e hc]
    simp [hc]
  · rw [getRoot_rejected env w e hc hs]
    simp [hc, hs]

/-! ## C11: the scenario of the specification -/

/-- C11 as stated fails. From the empty store with the counter at 1, both creates answer 201, and
the read handler run next answers 200 with no record at all, not with the two records: it
selects from table `apple`. -/
theorem scenario_read_counterexample :
    statusOf (postUsers Env.healthy ⟨"Alice", "a@x.com", "pw1"⟩ emptyWorld) = some 201 ∧
    statusOf (postUsers Env.healthy ⟨"Bob", "b@x.com", "pw2"⟩ afterAlice) = some 201 ∧
    statusOf (getRoot Env.healthy afterBob) = some 200 ∧
    recordsOf (getRoot Env.healthy afterBob) = [] :=
  ⟨rfl, rfl, rfl, rfl⟩

/-- C11 amended. From the empty store with the counter at 1, the create for Alice gives her id 1
and the create for Bob gives him id 2, and table `users` then holds both records; after the
update of id 1 table `users` shows record 1 with the new values and record 2 unchanged; after
the delete of id 2 table `users` holds exactly the one record with id 1. Every request answers
its success status, and the read handler, which selects from table `apple`, returns the empty
list at each stage. -/
theorem scenario_users_table :
    afterAlice.store.users.rows = [⟨1, "Alice", "a@x.com", "pw1"⟩] ∧
    afterBob.store.users.rows =
      [⟨1, "Alice", "a@x.com", "pw1"⟩, ⟨2, "Bob", "b@x.com", "pw2"⟩] ∧
    afterUpdate.store.users.rows =
      [⟨1, "Alice2", "a2@x.com", "pw1b"⟩, ⟨2, "Bob", "b@x.com", "pw2"⟩] ∧
    afterDelete.store.users.rows = [⟨1, "Alice2", "a2@x.com", "pw1b"⟩] ∧
    (statusOf (postUsers Env.healthy ⟨"Alice", "a@x.com", "pw1"⟩ emptyWorld) = some 201 ∧
      statusOf (postUsers Env.healthy ⟨"Bob", "b@x.com", "pw2"⟩ afterAlice) = some 201 ∧
      statusOf (putUsers Env.healthy ⟨1, "Alice2", "a2@x.com", "pw1b"⟩ afterBob) = some 200 ∧
      statusOf (deleteUsers Env.healthy 2 afterUpdate) = some 200) ∧
    (recordsOf (getRoot Env.healthy afterBob) = [] ∧
      recordsOf (getRoot Env.healthy afterUpdate) = [] ∧
      recordsOf (getRoot Env.healthy afterDelete) = []) :=
  ⟨rfl, rfl, rfl, rfl, ⟨rfl, rfl, rfl, rfl⟩, ⟨rfl, rfl, rfl⟩⟩

/-! ## C12: the connection of a request whose statement is rejected -/

/-- C12 fails on the code. When the connection is acquired and the statement rejected, each of
the four handlers answers 500 and leaves one more connection held than before the request:
control passes from the rejected `await` to `catch`, past `connection.release()` and
`connection.end()`. -/
theorem rejected_statement_keeps_connection_held :
    (statusOf (getRoot rejectingEnv emptyWorld) = some 500 ∧
      (getRoot rejectingEnv emptyWorld).2.connections = emptyWorld.connections + 1) ∧
    (statusOf (postUsers rejectingEnv ⟨"Alice", "a@x.com", "pw1"⟩ emptyWorld) = some 500 ∧
      (postUsers rejectingEnv ⟨"Alice", "a@x.com", "pw1"⟩ emptyWorld).2.connections =
        emptyWorld.connections + 1) ∧
    (statusOf (putUsers rejectingEnv ⟨1, "Alice2", "a2@x.com", "pw1b"⟩ aliceWorld) = some 500 ∧
      (putUsers rejectingEnv ⟨1, "Alice2", "a2@x.com", "pw1b"⟩ aliceWorld).2.connections =
        aliceWorld.connections + 1) ∧
    (statusOf (deleteUsers rejectingEnv 1 aliceWorld) = some 500 ∧
      (deleteUsers rejectingEnv 1 aliceWorld).2.connections = aliceWorld.connections + 1) :=
  ⟨⟨rfl, rfl⟩, ⟨rfl, rfl⟩, ⟨rfl, rfl⟩, ⟨rfl, rfl⟩⟩

/-! ## C17: a failed write leaves the store alone -/

/-- C17. For every store and every request to the create, update or delete handler, when the
response has status 500 the store after the request is the store before it. -/
theorem failed_write_keeps_store (env : Env) (c : CreateRequest) (u : UpdateRequest)
    (userId : Nat) (w : World) :
    (statusOf (postUsers env c w) = some 500 → (postUsers env c w).2.store = w.store) ∧
    (statusOf (putUsers env u w) = some 500 → (putUsers env u w).2.store = w.store) ∧
    (statusOf (deleteUsers env userId w) = some 500 →
      (deleteUsers env userId w).2.store = w.store) := by
  refine ⟨fun h => ?_, fun h => ?_, fun h => ?_⟩
  · rw [postUsers_store, if_neg (not_served_of_postUsers_500 h)]
  · rw [putUsers_store, if_neg (not_served_of_putUsers_500 h)]
  · rw [deleteUsers_store, if_neg (not_served_of_deleteUsers_500 h)]

theorem failed_write_keeps_store_witness :
    (statusOf (postUsers rejectingEnv ⟨"Bob", "b@x.com", "pw2"⟩ aliceWorld) = some 500 ∧
      (postUsers rejectingEnv ⟨"Bob", "b@x.com", "pw2"⟩ aliceWorld).2.store =
        aliceWorld.store) ∧
    (statusOf (putUsers refusingEnv ⟨1, "Alice2", "a2@x.com", "pw1b"⟩ aliceWorld) = some 500 ∧
      (putUsers refusingEnv ⟨1, "Alice2", "a2@x.com", "pw1b"⟩ aliceWorld).2.store =
        aliceWorld.store) ∧
    (statusOf (deleteUsers rejectingEnv 1 aliceWorld) = some 500 ∧
      (deleteUsers rejectingEnv 1 aliceWorld).2.store = aliceWorld.store) :=
  ⟨⟨rfl, (failed_write_keeps_store rejectingEnv ⟨"Bob", "b@x.com", "pw2"⟩
      ⟨1, "Alice2", "a2@x.com", "pw1b"⟩ 1 aliceWorld).1 rfl⟩,
    ⟨rfl, (failed_write_keeps_store refusingEnv ⟨"Bob", "b@x.com", "pw2"⟩
      ⟨1, "Alice2", "a2@x.com", "pw1b"⟩ 1 aliceWorld).2.1 rfl⟩,
    ⟨rfl, (failed_write_keeps_store rejectingEnv ⟨"Bob", "b@x.com", "pw2"⟩
      ⟨1, "Alice2", "a2@x.com", "pw1b"⟩ 1 aliceWorld).2.2 rfl⟩⟩

end CrudApi

namespace ErrorHandling

/-! ## C13: `divide` -/

/-- C13. For all numbers `a` and `b`, `divide a b` throws 'Division by zero is not allowed.'
exactly when `b` is zero (`b === 0`), and returns the quotient `a / b` exactly when it is
not. -/
theorem divide_throws_iff_zero (a b : Float) :
    (divide a b = .error "Division by zero is not allowed." ↔ (b == 0) = true) ∧
    (divide a b = .ok (a / b) ↔ (b == 0) = false) := by
  unfold divide
  cases h : (b == 0) <;> simp

end ErrorHandling

namespace QueryParameters

/-! ## C14: the greeting of the query-parameter server -/

/-- C14 as stated fails, in two ways. For a URL that carries `name` with the empty value the
server answers 'Hello, Guest!', not 'Hello, !' with the value of the parameter; and for a
request target on which `url.parse` throws, the exception leaves the handler and there is no
response at all. -/
theorem empty_name_counterexample :
    handler (.query (.single "")) = .ok ⟨200, "text/plain", "Hello, Guest!"⟩ ∧
    (greet (.single "")).body ≠ "Hello, " ++ "" ++ "!" ∧
    handler (.throws "Invalid URL") = .error "Invalid URL" ∧
    ¬ ∃ r : Reply, handler (.throws "Invalid URL") = .ok r := by
  refine ⟨rfl, by decide, rfl, ?_⟩
  rintro ⟨r, hr⟩
  exact absurd hr (by simp [handler])

/-- C14 amended. For every request whose target `url.parse` parses, the response has status 200
and the body 'Hello, <name>!', where <name> is the value of the `name` query parameter when that
value is not empty (the values joined by commas when the URL carries several), and 'Guest' when
the URL carries no `name` parameter or carries it with the empty value. -/
theorem handler_greeting (queryName : QueryValue) :
    handler (.query queryName) =
      .ok ⟨200, "text/plain",
        "Hello, " ++
          (match queryName with
            | .undefined => "Guest"
            | .single s => if s = "" then "Guest" else s
            | .many values => ",".intercalate values) ++ "!"⟩ := by
  cases queryName with
  | undefined => rfl
  | single s =>
    by_cases hs : s = ""
    · simp [handler, greet, QueryValue.truthy, QueryValue.toText, hs]
    · simp [handler, greet, QueryValue.truthy, QueryValue.toText, hs]
  | many values => rfl

end QueryParameters

namespace FileUpload

/-! ## C15: the names of uploaded files -/

/-- C15 fails on the code. Two uploads of files named `a.txt` whose callbacks run in the same
millisecond both get the name `1700000000000-a.txt`: the names of the two uploads are not
different. -/
theorem same_millisecond_same_name :
    filenames sameMillisecond = ["1700000000000-a.txt", "1700000000000-a.txt"] ∧
    ¬ (filenames sameMillisecond).Nodup := by
  have h : filenames sameMillisecond = ["1700000000000-a.txt", "1700000000000-a.txt"] := by
    decide
  exact ⟨h, by rw [h]; decide⟩

end FileUpload

namespace Authentication

/-! ## C16: the verify callback -/

/-- C16. For every username and password the verify callback calls `done` with the user
`{id: 1, username: 'user'}` exactly when the username is 'user' and the password is 'password',
and with `false` and the message 'Incorrect username or password.' exactly when not; the first
argument of `done` is `null` in every case. -/
theorem verify_iff (username password : String) :
    (verify username password = ⟨none, some ⟨1, "user"⟩, none⟩ ↔
      username = "user" ∧ password = "password") ∧
    (verify username password = ⟨none, none, some "Incorrect username or password."⟩ ↔
      ¬ (username = "user" ∧ password = "password")) ∧
    (verify username password).error = none := by
  unfold verify
  by_cases h : username = "user" ∧ password = "password"
  · simp [h]
  · simp [h]

end Authentication
